import Mathlib

/-
Verification of the Anthropic provider adapter of obsidian-smart-composer
(src/core/llm/anthropic.ts) against its specification.

The adapter is embedded shallowly: each TypeScript function becomes a Lean
function with the same name; thrown exceptions become an `Except` error
channel whose constructors correspond one-to-one to the distinct throw
sites in the source; the vendor transport (the Anthropic SDK call) is an
explicit function argument, so that statements quantifying over all
transports express that the transport is never consulted.
-/

namespace SmartComposer

/-- Role of a canonical request message (src/types/llm/request.ts,
`RequestMessage.role`: user | assistant | system). -/
inductive Role where
  | user
  | assistant
  | system
  deriving DecidableEq

/-- One typed fragment of a multi-part message (src/types/llm/request.ts,
`ContentPart`): a text part, or an image reference carrying a data URL. -/
inductive ContentPart where
  | text (text : String)
  | image_url (url : String)
  deriving DecidableEq

/-- Content of a canonical message: a plain string or an ordered sequence of
content parts (src/types/llm/request.ts, `RequestMessage.content`). -/
inductive MessageContent where
  | str (s : String)
  | parts (ps : List ContentPart)
  deriving DecidableEq

/-- Canonical request message (src/types/llm/request.ts, `RequestMessage`). -/
structure RequestMessage where
  role : Role
  content : MessageContent
  deriving DecidableEq

/-- The slice of the model-configuration record the adapter reads
(src/types/chat-model.types.ts): the provider tag and the optional
thinking configuration, holding `budget_tokens`. -/
structure ChatModel where
  providerType : String
  thinking : Option Nat
  deriving DecidableEq

/-- Canonical LLM request (src/types/llm/request.ts, `LLMRequestBase`),
restricted to the fields the Anthropic adapter reads. Sampling parameters
`temperature` and `top_p` are opaque pass-through numbers, embedded as
rationals. -/
structure LLMRequest where
  model : String
  messages : List RequestMessage
  max_tokens : Option Nat
  temperature : Option Rat
  top_p : Option Rat
  deriving DecidableEq

/-- Provider-credential record consumed by the adapter constructor
(`{id, apiKey, baseUrl}`). -/
structure Provider where
  id : String
  apiKey : Option String
  baseUrl : Option String
  deriving DecidableEq

/-- The vendor transport handle built by the constructor: the Anthropic SDK
client, of which the adapter reads only `apiKey` (and the normalized
`baseURL`). -/
structure Client where
  apiKey : Option String
  baseURL : Option String
  deriving DecidableEq

/-- The adapter instance: stored provider record plus the constructed
client (fields `provider` and `client` of `AnthropicProvider`). -/
structure AnthropicProvider where
  provider : Provider
  client : Client
  deriving DecidableEq

/-- Strips every trailing slash from a base URL, as
`provider.baseUrl.replace(/\/+$/, '')` does. -/
def stripTrailingSlashes (s : String) : String :=
  String.mk (s.toList.reverse.dropWhile (fun c => c == ('/' : Char))).reverse

/-- The `AnthropicProvider` constructor: stores the provider record and
builds the client. A missing base URL (or, by JS falsiness, an empty one)
leaves the SDK default; otherwise trailing slashes are stripped. The
constructor is a total function: it never fails, in particular not on a
missing API key. -/
def mkAnthropicProvider (p : Provider) : AnthropicProvider :=
  ⟨p,
   ⟨p.apiKey,
    match p.baseUrl with
    | none => none
    | some u => if u == ("") then none else some (stripTrailingSlashes u)⟩⟩

/-- Error channel of the adapter. Each constructor corresponds to one
distinct throw site of anthropic.ts (or of the modelled image util):
  - `modelProviderMismatch`: `new Error('Model is not a Anthropic model')`;
  - `apiKeyNotSet` / `apiKeyInvalid`: the dedicated exception classes;
  - `tooManySystemMessages` / `nonStringSystemContent`: the two throws of
    `validateSystemMessages` (spec taxonomy kind UnsupportedRequestShape);
  - `unsupportedRole`: the role guard of `parseRequestMessage`;
  - `unsupportedImageType`: the throw of `validateImageType`, carrying the
    full message text;
  - `malformedImageRef`: decode failure of the image data URL;
  - `toolUseContent`: `parseNonStreamingResponse` on a leading tool_use
    block (spec taxonomy kind UnsupportedContentType);
  - `unsupportedChunkType` / `inputJsonDelta`: the two throws of
    `parseStreamingResponseChunk`;
  - `jsTypeError`: the TypeError raised by `response.content[0].type`
    when the content array is empty;
  - `vendorPassthrough`: a non-authentication transport failure rethrown
    unchanged, carrying the vendor error verbatim. -/
inductive AdapterError where
  | modelProviderMismatch
  | apiKeyNotSet (message : String)
  | apiKeyInvalid (message : String)
  | tooManySystemMessages
  | nonStringSystemContent
  | unsupportedRole (role : String)
  | unsupportedImageType (message : String)
  | malformedImageRef (url : String)
  | toolUseContent
  | unsupportedChunkType
  | inputJsonDelta
  | jsTypeError
  | vendorPassthrough (message : String)
  deriving DecidableEq

/-- Failure reported by the vendor transport: an authentication error
(`Anthropic.AuthenticationError`, carrying its message) or any other
transport failure, carried verbatim. -/
inductive VendorError where
  | authError (message : String)
  | other (message : String)
  deriving DecidableEq

/-- Result of decoding an image data URL: mime type and base64 payload. -/
structure ImageData where
  mimeType : String
  base64Data : String
  deriving DecidableEq

/-- Checks a list of characters for an occurrence of a pattern at its
head. -/
def charsStartWith : List Char → List Char → Bool
  | _, [] => true
  | [], _ :: _ => false
  | c :: cs, p :: ps => c == p && charsStartWith cs ps

/-- Checks a list of characters for an occurrence of a pattern anywhere. -/
def charsContain : List Char → List Char → Bool
  | [], pat => pat.isEmpty
  | c :: cs, pat => charsStartWith (c :: cs) pat || charsContain cs pat

/-- Substring test, the embedding of `String.prototype.includes`. -/
def containsSubstr (s pat : String) : Bool :=
  charsContain s.toList pat.toList

/-- Splits a character list at the first occurrence of a pattern, returning
the part before it and the part after it, or nothing when the pattern does
not occur. -/
def splitFirstOn (pat : List Char) : List Char → Option (List Char × List Char)
  | [] => if pat.isEmpty then some ([], []) else none
  | c :: cs =>
    if charsStartWith (c :: cs) pat then some ([], (c :: cs).drop pat.length)
    else
      match splitFirstOn pat cs with
      | none => none
      | some (a, b) => some (c :: a, b)

/-- Modelled from the spec: `parseImageDataUrl` from src/utils/llm/image.ts,
which is not among the provided sources. Per the spec (Image Source
Resolver, section 4.2 and section 6), it decodes an embedded-data reference
of the form `data:<mimeType>;base64,<payload>` into its mime type and
base64 payload; a malformed reference is a hard error
(`MalformedImageReference`), not a fallback. -/
def parseImageDataUrl (url : String) : Except AdapterError ImageData :=
  match splitFirstOn (";base64,").toList url.toList with
  | some (head, payload) =>
    if charsStartWith head ("data:").toList then
      .ok ⟨String.mk (head.drop 5), String.mk payload⟩
    else .error (.malformedImageRef url)
  | none => .error (.malformedImageRef url)

/-- The vendor mime-type allow-list (`SUPPORTED_IMAGE_TYPES` in
`validateImageType`). -/
def SUPPORTED_IMAGE_TYPES : List String :=
  [("image/jpeg"), ("image/png"), ("image/gif"), ("image/webp")]

/-- The constant tail of the unsupported-image-type error message,
enumerating the allowed set (`Supported types: ${...join(', ')}`). -/
def imageTypesSuffix : String :=
  (". Supported types: ") ++ String.intercalate (", ") SUPPORTED_IMAGE_TYPES

/-- The full message of the unsupported-image-type error
(`Anthropic does not support image type ${mimeType}. Supported types: ...`). -/
def imageTypeErrorMessage (mimeType : String) : String :=
  ("Anthropic does not support image type ") ++ mimeType ++ imageTypesSuffix

/-- `validateImageType`: rejects a mime type outside the allow-list with an
error message enumerating the allowed set. -/
def validateImageType (mimeType : String) : Except AdapterError Unit :=
  if SUPPORTED_IMAGE_TYPES.contains mimeType then .ok ()
  else .error (.unsupportedImageType (imageTypeErrorMessage mimeType))

/-- A vendor content block of the request payload (`TextBlockParam` or
`ImageBlockParam` with a base64 source). -/
inductive ContentBlock where
  | text (text : String)
  | image (media_type : String) (data : String)
  deriving DecidableEq

/-- Content of a transmitted vendor message. `str` and `blocks` are the two
shapes the vendor type admits. `rawParts` records the effect of the
`message.content as string` cast in `parseRequestMessage`: at runtime the
original `ContentPart` array is transmitted unchanged under a string-typed
field, so the embedding keeps it verbatim. -/
inductive MessageParamContent where
  | str (s : String)
  | blocks (bs : List ContentBlock)
  | rawParts (ps : List ContentPart)
  deriving DecidableEq

/-- A transmitted vendor message (`MessageParam`). -/
structure MessageParam where
  role : Role
  content : MessageParamContent
  deriving DecidableEq

/-- Left-to-right effectful map over a list, stopping at the first error:
the evaluation order of `Array.prototype.map` when the callback throws. -/
def mapExcept (f : α → Except AdapterError β) : List α → Except AdapterError (List β)
  | [] => .ok []
  | a :: as =>
    match f a with
    | .error e => .error e
    | .ok b =>
      match mapExcept f as with
      | .error e => .error e
      | .ok bs => .ok (b :: bs)

/-- Translation of one content part of a user message: text maps 1:1; an
image reference is decoded and its mime type checked against the
allow-list. -/
def parseContentPart (part : ContentPart) : Except AdapterError ContentBlock :=
  match part with
  | .text t => .ok (.text t)
  | .image_url url =>
    match parseImageDataUrl url with
    | .error e => .error e
    | .ok d =>
      match validateImageType d.mimeType with
      | .error e => .error e
      | .ok _ => .ok (.image d.mimeType d.base64Data)

/-- `parseRequestMessage`: rejects roles other than user/assistant;
translates multi-part content part-by-part for user messages; every other
case falls through to `{ role, content: message.content as string }`, which
transmits the content value unchanged — for an assistant message holding a
part sequence that is the raw part sequence itself. -/
def parseRequestMessage (m : RequestMessage) : Except AdapterError MessageParam :=
  match m.role, m.content with
  | .system, _ => .error (.unsupportedRole ("system"))
  | .user, .parts ps =>
    match mapExcept parseContentPart ps with
    | .error e => .error e
    | .ok bs => .ok ⟨.user, .blocks bs⟩
  | .user, .str s => .ok ⟨.user, .str s⟩
  | .assistant, .str s => .ok ⟨.assistant, .str s⟩
  | .assistant, .parts ps => .ok ⟨.assistant, .rawParts ps⟩

/-- `validateSystemMessages`: more than one system-role message is an
error; a sole system message must have string content (an empty string is
falsy in JS and skips the type check, but is returned as the system field
all the same; a part array, even empty, is truthy and non-string, hence an
error); the extracted content, when present, becomes the top-level system
field. -/
def validateSystemMessages (messages : List RequestMessage) :
    Except AdapterError (Option String) :=
  match messages.filter (fun m => m.role == Role.system) with
  | [] => .ok none
  | [m] =>
    match m.content with
    | .str s => .ok (some s)
    | .parts _ => .error .nonStringSystemContent
  | _ :: _ :: _ => .error .tooManySystemMessages

/-- `isMessageEmpty`: whitespace-only string content
(`content.trim() === ''`, embedded as all characters whitespace), or a
zero-length part sequence. -/
def isMessageEmpty (m : RequestMessage) : Bool :=
  match m.content with
  | .str s => s.toList.all (fun c => c.isWhitespace)
  | .parts ps => ps.length == 0

/-- `DEFAULT_MAX_TOKENS`, the vendor default floor. -/
def DEFAULT_MAX_TOKENS : Nat := 8192

/-- The vendor request payload passed to `client.messages.create`. -/
structure AnthropicPayload where
  model : String
  messages : List MessageParam
  system : Option String
  thinking : Option Nat
  max_tokens : Nat
  temperature : Option Rat
  top_p : Option Rat
  stream : Bool
  deriving DecidableEq

/-- Construction of the vendor payload, shared verbatim by
`generateResponse` and `streamResponse`: validate and extract the system
message, drop system-role and empty messages, translate the rest in order,
default `max_tokens` to the thinking budget plus the floor (thinking
configured) or the floor alone (otherwise), pass sampling parameters
through by name. -/
def buildPayload (model : ChatModel) (req : LLMRequest) (stream : Bool) :
    Except AdapterError AnthropicPayload :=
  match validateSystemMessages req.messages with
  | .error e => .error e
  | .ok system =>
    match mapExcept parseRequestMessage
        ((req.messages.filter (fun m => m.role != Role.system)).filter
          (fun m => !isMessageEmpty m)) with
    | .error e => .error e
    | .ok msgs =>
      .ok ⟨req.model, msgs, system, model.thinking,
        (match req.max_tokens with
         | some t => t
         | none =>
           match model.thinking with
           | some budget => budget + DEFAULT_MAX_TOKENS
           | none => DEFAULT_MAX_TOKENS),
        req.temperature, req.top_p, stream⟩

/-- Canonical usage accounting (src/types/llm/response.ts,
`ResponseUsage`). -/
structure ResponseUsage where
  prompt_tokens : Nat
  completion_tokens : Nat
  total_tokens : Nat
  deriving DecidableEq

/-- A content block of a vendor non-streaming reply (`Anthropic.Message`
content): text, thinking, or a structured tool invocation. -/
inductive RespContentBlock where
  | text (text : String)
  | thinking (thinking : String)
  | tool_use (id : String) (name : String) (input : String)
  deriving DecidableEq

/-- Usage snapshot of a vendor reply or stream-start event. -/
structure AnthropicUsage where
  input_tokens : Nat
  output_tokens : Nat
  deriving DecidableEq

/-- The vendor non-streaming reply (`Anthropic.Message`), restricted to the
fields the adapter reads. -/
structure AnthropicMessage where
  id : String
  model : String
  role : String
  content : List RespContentBlock
  stop_reason : Option String
  usage : AnthropicUsage
  deriving DecidableEq

/-- Message body of one canonical choice. -/
structure ChoiceMessage where
  content : String
  reasoning : Option String
  role : String
  deriving DecidableEq

/-- One choice of the canonical non-streaming response. -/
structure Choice where
  finish_reason : Option String
  message : ChoiceMessage
  deriving DecidableEq

/-- Canonical non-streaming response (src/types/llm/response.ts). -/
structure LLMResponseNonStreaming where
  id : String
  choices : List Choice
  model : String
  object : String
  usage : ResponseUsage
  deriving DecidableEq

/-- The text carried by a text-typed block, if any. -/
def blockText (b : RespContentBlock) : Option String :=
  match b with
  | .text t => some t
  | _ => none

/-- The text carried by a thinking-typed block, if any. -/
def blockThinking (b : RespContentBlock) : Option String :=
  match b with
  | .thinking t => some t
  | _ => none

/-- `parseNonStreamingResponse`: fails when the FIRST content block is a
tool invocation (`response.content[0].type === 'tool_use'`; on an empty
content array the subscript yields undefined and the property access
raises a TypeError, embedded as `jsTypeError`); otherwise concatenates all
text blocks in order into the message body and all thinking blocks in
order into the optional reasoning field (empty concatenation is falsy and
becomes undefined), and renames the usage fields. -/
def parseNonStreamingResponse (response : AnthropicMessage) :
    Except AdapterError LLMResponseNonStreaming :=
  match response.content.head? with
  | none => .error .jsTypeError
  | some (.tool_use _ _ _) => .error .toolUseContent
  | some _ =>
    let textContent := String.join (response.content.filterMap blockText)
    let reasoningJoined := String.join (response.content.filterMap blockThinking)
    .ok ⟨response.id,
      [⟨response.stop_reason,
        ⟨textContent,
         (if reasoningJoined == ("") then none else some reasoningJoined),
         response.role⟩⟩],
      response.model, ("chat.completion"),
      ⟨response.usage.input_tokens, response.usage.output_tokens,
       response.usage.input_tokens + response.usage.output_tokens⟩⟩

/-- The vendor error text identifying the known CORS-policy restriction on
newly created individual accounts. -/
def corsRestrictionText : String :=
  ("CORS requests are not allowed for this Organization")

/-- The constant tail of the CORS-specific `APIKeyInvalid` message,
carrying the organization-creation remediation guidance. -/
def corsRemediationSuffix : String :=
  (" is experiencing a CORS issue. This is a known issue with new individual Anthropic accounts.\n\nTo resolve this issue:\n\n1. Go to https://console.anthropic.com/settings/organization\n2. Create a new organization\n3. Your API key should work properly after creating an organization\n\nFor more information, please refer to the following issue:\nhttps://github.com/glowingjade/obsidian-smart-composer/issues/286")

/-- The CORS-specific `APIKeyInvalid` message for a provider id. -/
def corsRemediationMessage (providerId : String) : String :=
  ("Provider ") ++ providerId ++ corsRemediationSuffix

/-- The generic `APIKeyInvalid` message for a provider id. -/
def invalidKeyMessage (providerId : String) : String :=
  ("Provider ") ++ providerId ++ (" API key is invalid. Please update it in settings menu.")

/-- The `APIKeyNotSet` message for a provider id. -/
def apiKeyMissingMessage (providerId : String) : String :=
  ("Provider ") ++ providerId ++ (" API key is missing. Please set it in settings menu.")

/-- JS truthiness of `this.client.apiKey`: present and non-empty. -/
def hasApiKey (c : Client) : Bool :=
  match c.apiKey with
  | none => false
  | some k => !(k == (""))

/-- The catch block shared by `generateResponse` and `streamResponse`: an
authentication error whose message contains the known CORS restriction
text becomes the CORS-specific `APIKeyInvalid`; any other authentication
error becomes the generic `APIKeyInvalid`; every other failure is rethrown
unchanged. -/
def classifyVendorError (providerId : String) (e : VendorError) : AdapterError :=
  match e with
  | .authError msg =>
    if containsSubstr msg corsRestrictionText then
      .apiKeyInvalid (corsRemediationMessage providerId)
    else
      .apiKeyInvalid (invalidKeyMessage providerId)
  | .other msg => .vendorPassthrough msg

/-- `generateResponse`: provider-tag check, call-time credential check,
payload construction (system extraction, filtering, translation), then the
vendor transport; its reply is normalized by `parseNonStreamingResponse`.
The transport is an explicit argument so that a result independent of it
witnesses that no transport call was made. -/
def generateResponse (p : AnthropicProvider) (model : ChatModel)
    (request : LLMRequest)
    (transport : AnthropicPayload → Except VendorError AnthropicMessage) :
    Except AdapterError LLMResponseNonStreaming :=
  if model.providerType != ("anthropic") then .error .modelProviderMismatch
  else if !hasApiKey p.client then
    .error (.apiKeyNotSet (apiKeyMissingMessage p.provider.id))
  else
    match buildPayload model request false with
    | .error e => .error e
    | .ok payload =>
      match transport payload with
      | .error ve => .error (classifyVendorError p.provider.id ve)
      | .ok response => parseNonStreamingResponse response

/-- A content delta of a streaming event (`RawContentBlockDelta`). -/
inductive ContentBlockDelta where
  | text_delta (text : String)
  | thinking_delta (thinking : String)
  | input_json_delta (j : String)
  deriving DecidableEq

/-- A vendor streaming event (`MessageStreamEvent`). `message_start`
carries the message id, model name and initial usage snapshot;
`message_delta` carries the incremental output-token usage; the remaining
kinds are ignored by the adapter. -/
inductive MessageStreamEvent where
  | message_start (id : String) (model : String)
      (input_tokens : Nat) (output_tokens : Nat)
  | content_block_start
  | content_block_delta (delta : ContentBlockDelta)
  | content_block_stop
  | message_delta (output_tokens : Nat)
  | message_stop
  deriving DecidableEq

/-- The delta of one streaming choice. -/
structure StreamDelta where
  content : Option String
  reasoning : Option String
  deriving DecidableEq

/-- One choice of a canonical streaming chunk. -/
structure StreamChoice where
  finish_reason : Option String
  delta : StreamDelta
  deriving DecidableEq

/-- Canonical streaming chunk (src/types/llm/response.ts,
`LLMResponseStreaming`); `usage` is present only on the terminal chunk. -/
structure LLMResponseStreaming where
  id : String
  choices : List StreamChoice
  object : String
  model : String
  usage : Option ResponseUsage
  deriving DecidableEq

/-- `parseStreamingResponseChunk`: only content-block deltas are
translatable; a tool-call (`input_json_delta`) delta is an error; a text
or thinking delta becomes one canonical chunk carrying that delta and no
usage. -/
def parseStreamingResponseChunk (chunk : MessageStreamEvent)
    (messageId : String) (model : String) :
    Except AdapterError LLMResponseStreaming :=
  match chunk with
  | .content_block_delta d =>
    match d with
    | .input_json_delta _ => .error .inputJsonDelta
    | .text_delta t =>
      .ok ⟨messageId, [⟨none, ⟨some t, none⟩⟩], ("chat.completion.chunk"), model, none⟩
    | .thinking_delta t =>
      .ok ⟨messageId, [⟨none, ⟨none, some t⟩⟩], ("chat.completion.chunk"), model, none⟩
  | _ => .error .unsupportedChunkType

/-- The Stream Accumulator: message id, model name and running usage,
the only mutable state of a streaming call. -/
structure StreamAcc where
  messageId : String
  model : String
  usage : ResponseUsage
  deriving DecidableEq

/-- The terminal sentinel chunk yielded after the vendor stream is
exhausted: empty choices, the final running usage. -/
def terminalChunk (acc : StreamAcc) : LLMResponseStreaming :=
  ⟨acc.messageId, [], ("chat.completion.chunk"), acc.model, some acc.usage⟩

/-- The loop body of `streamResponseGenerator` as an explicit fold over
the vendor event list: `message_start` seeds the accumulator from the
initial usage snapshot and yields nothing; a content-block delta yields
its translation (an error there aborts the generator, discarding the
terminal chunk); `message_delta` adds the incremental output tokens to the
running usage and yields nothing; other event kinds are ignored. After the
list is exhausted the terminal sentinel is yielded. The result pairs the
emitted chunk sequence with the error that aborted the generator, if
any. -/
def runStream : StreamAcc → List MessageStreamEvent →
    List LLMResponseStreaming × Option AdapterError
  | acc, [] => ([terminalChunk acc], none)
  | acc, e :: rest =>
    match e with
    | .message_start id mdl inTok outTok =>
      runStream ⟨id, mdl, ⟨inTok, outTok, inTok + outTok⟩⟩ rest
    | .content_block_delta d =>
      match parseStreamingResponseChunk (.content_block_delta d)
          acc.messageId acc.model with
      | .error err => ([], some err)
      | .ok c =>
        match runStream acc rest with
        | (cs, err) => (c :: cs, err)
    | .message_delta outTok =>
      runStream ⟨acc.messageId, acc.model,
        ⟨acc.usage.prompt_tokens, acc.usage.completion_tokens + outTok,
         acc.usage.total_tokens + outTok⟩⟩ rest
    | _ => runStream acc rest

/-- `streamResponseGenerator`: consumes the vendor event stream starting
from the zero-initialized accumulator. -/
def streamResponseGenerator (events : List MessageStreamEvent) :
    List LLMResponseStreaming × Option AdapterError :=
  runStream ⟨(""), (""), ⟨0, 0, 0⟩⟩ events

/-- `streamResponse`: same preconditions and request translation as
`generateResponse`, with the streaming flag set; the vendor transport
returns the event stream, which `streamResponseGenerator` consumes. -/
def streamResponse (p : AnthropicProvider) (model : ChatModel)
    (request : LLMRequest)
    (transport : AnthropicPayload → Except VendorError (List MessageStreamEvent)) :
    Except AdapterError (List LLMResponseStreaming × Option AdapterError) :=
  if model.providerType != ("anthropic") then .error .modelProviderMismatch
  else if !hasApiKey p.client then
    .error (.apiKeyNotSet (apiKeyMissingMessage p.provider.id))
  else
    match buildPayload model request true with
    | .error e => .error e
    | .ok payload =>
      match transport payload with
      | .error ve => .error (classifyVendorError p.provider.id ve)
      | .ok events => .ok (streamResponseGenerator events)

/-- True unless the event is a tool-call (`input_json_delta`) content
delta, the one event kind whose translation raises an error. -/
def noToolDelta (e : MessageStreamEvent) : Bool :=
  match e with
  | .content_block_delta (.input_json_delta _) => false
  | _ => true

/-- True exactly for stream-start events. -/
def isMessageStart (e : MessageStreamEvent) : Bool :=
  match e with
  | .message_start _ _ _ _ => true
  | _ => false

/-- Sum of the incremental output-token counts carried by the
metadata-delta (`message_delta`) events of a stream. -/
def sumMessageDeltaTokens : List MessageStreamEvent → Nat
  | [] => 0
  | .message_delta n :: rest => n + sumMessageDeltaTokens rest
  | _ :: rest => sumMessageDeltaTokens rest

/-- The `completion_tokens` of the usage field of the last chunk emitted
by a stream, when both exist. -/
def terminalCompletionTokens
    (out : List LLMResponseStreaming × Option AdapterError) : Option Nat :=
  match out.1.getLast? with
  | none => none
  | some c =>
    match c.usage with
    | none => none
    | some u => some u.completion_tokens

/-- True exactly for tool-invocation content blocks of a vendor reply. -/
def blockIsToolUse (b : RespContentBlock) : Bool :=
  match b with
  | .tool_use _ _ _ => true
  | _ => false

/-- Concrete request fixture: one system message, one user message, one
whitespace-only user message. -/
def c3req : LLMRequest :=
  ⟨("claude-3-5-sonnet"),
   [⟨Role.system, MessageContent.str ("Be terse")⟩,
    ⟨Role.user, MessageContent.str ("Hi")⟩,
    ⟨Role.user, MessageContent.str ("  ")⟩], none, none, none⟩

/-- The payload the adapter builds for `c3req` without thinking. -/
def c3payload : AnthropicPayload :=
  ⟨("claude-3-5-sonnet"), [⟨Role.user, MessageParamContent.str ("Hi")⟩],
   some ("Be terse"), none, 8192, none, none, false⟩

/-- Concrete request fixture with no messages. -/
def c5req : LLMRequest := ⟨("claude-3-7"), [], none, none, none⟩

/-- The payload the adapter builds for `c5req` under a thinking budget of
2048: the transmitted max_tokens is the budget plus the 8192 floor. -/
def c5payload : AnthropicPayload :=
  ⟨("claude-3-7"), [], none, some 2048, 10240, none, none, false⟩

/-- Concrete adapter fixture with a present credential. -/
def cProv : AnthropicProvider :=
  mkAnthropicProvider ⟨("prov1"), some ("sk-key"), none⟩

/-- Concrete request fixture with two system messages. -/
def c4req : LLMRequest :=
  ⟨("claude-3-5-sonnet"),
   [⟨Role.system, MessageContent.str ("a")⟩,
    ⟨Role.system, MessageContent.str ("b")⟩], none, none, none⟩

/-- Concrete request fixture with one unsupported (bmp) image part. -/
def c6req : LLMRequest :=
  ⟨("claude-3-5-sonnet"),
   [⟨Role.user, MessageContent.parts
     [ContentPart.image_url ("data:image/bmp;base64,AAAA")]⟩], none, none, none⟩

/-- A non-streaming transport that always fails with an opaque error,
used to show pre-transport failures do not depend on the transport. -/
def failTransport : AnthropicPayload → Except VendorError AnthropicMessage :=
  fun _ => .error (.other (("transport unreachable")))

/-- A streaming transport that always fails with an opaque error. -/
def failStreamTransport :
    AnthropicPayload → Except VendorError (List MessageStreamEvent) :=
  fun _ => .error (.other (("transport unreachable")))

/-- The payload the adapter builds for `c5req` without thinking,
non-streaming. -/
def c7payloadG : AnthropicPayload :=
  ⟨("claude-3-7"), [], none, none, 8192, none, none, false⟩

/-- The payload the adapter builds for `c5req` without thinking,
streaming. -/
def c7payloadS : AnthropicPayload :=
  ⟨("claude-3-7"), [], none, none, 8192, none, none, true⟩

/-- Concrete vendor reply fixture: text, a later tool invocation, more
text, and a thinking block. -/
def c10resp : AnthropicMessage :=
  ⟨("msg_x"), ("claude-3"), ("assistant"),
   [RespContentBlock.text ("a"),
    RespContentBlock.tool_use ("t1") ("fn") ("args"),
    RespContentBlock.text ("b"), RespContentBlock.thinking ("hm")],
   some ("end_turn"), ⟨7, 9⟩⟩

theorem toList_append (s t : String) : (s ++ t).toList = s.toList ++ t.toList := by
  cases s
  cases t
  rfl

theorem charsContain_append_right (a b pat : List Char)
    (h : charsContain b pat = true) : charsContain (a ++ b) pat = true := by
  induction a with
  | nil => simpa using h
  | cons c cs ih =>
    show (charsStartWith (c :: (cs ++ b)) pat || charsContain (cs ++ b) pat) = true
    rw [ih, Bool.or_true]

theorem containsSubstr_append_right (s t pat : String)
    (h : containsSubstr t pat = true) : containsSubstr (s ++ t) pat = true := by
  unfold containsSubstr at h ⊢
  rw [toList_append]
  exact charsContain_append_right _ _ _ h

theorem runStream_terminal (events : List MessageStreamEvent) :
    ∀ acc, (∀ e ∈ events, noToolDelta e = true) →
    ∃ body term, runStream acc events = (body ++ [term], none) ∧
      term.choices = [] ∧ term.usage.isSome = true ∧
      ∀ c ∈ body, c.usage = none ∧ c.choices.length = 1 := by
  induction events with
  | nil =>
    intro acc _
    exact ⟨[], terminalChunk acc, by simp [runStream], rfl, rfl, by simp⟩
  | cons e rest ih =>
    intro acc h
    have hrest : ∀ x ∈ rest, noToolDelta x = true :=
      fun x hx => h x (List.mem_cons_of_mem _ hx)
    cases e with
    | message_start id mdl inTok outTok =>
      obtain ⟨body, term, heq, h1, h2, h3⟩ :=
        ih ⟨id, mdl, ⟨inTok, outTok, inTok + outTok⟩⟩ hrest
      exact ⟨body, term, by simp only [runStream]; exact heq, h1, h2, h3⟩
    | content_block_delta d =>
      cases d with
      | input_json_delta j =>
        have := h _ (List.mem_cons_self _ _)
        simp [noToolDelta] at this
      | text_delta t =>
        obtain ⟨body, term, heq, h1, h2, h3⟩ := ih acc hrest
        refine ⟨⟨acc.messageId, [⟨none, ⟨some t, none⟩⟩], ("chat.completion.chunk"),
          acc.model, none⟩ :: body, term, ?_, h1, h2, ?_⟩
        · simp only [runStream, parseStreamingResponseChunk]
          rw [heq]
          rfl
        · intro c hc
          rcases List.mem_cons.mp hc with hcEq | hcMem
          · subst hcEq
            exact ⟨rfl, rfl⟩
          · exact h3 c hcMem
      | thinking_delta t =>
        obtain ⟨body, term, heq, h1, h2, h3⟩ := ih acc hrest
        refine ⟨⟨acc.messageId, [⟨none, ⟨none, some t⟩⟩], ("chat.completion.chunk"),
          acc.model, none⟩ :: body, term, ?_, h1, h2, ?_⟩
        · simp only [runStream, parseStreamingResponseChunk]
          rw [heq]
          rfl
        · intro c hc
          rcases List.mem_cons.mp hc with hcEq | hcMem
          · subst hcEq
            exact ⟨rfl, rfl⟩
          · exact h3 c hcMem
    | content_block_start =>
      obtain ⟨body, term, heq, h1, h2, h3⟩ := ih acc hrest
      exact ⟨body, term, by simp only [runStream]; exact heq, h1, h2, h3⟩
    | content_block_stop =>
      obtain ⟨body, term, heq, h1, h2, h3⟩ := ih acc hrest
      exact ⟨body, term, by simp only [runStream]; exact heq, h1, h2, h3⟩
    | message_stop =>
      obtain ⟨body, term, heq, h1, h2, h3⟩ := ih acc hrest
      exact ⟨body, term, by simp only [runStream]; exact heq, h1, h2, h3⟩
    | message_delta n =>
      obtain ⟨body, term, heq, h1, h2, h3⟩ :=
        ih ⟨acc.messageId, acc.model,
          ⟨acc.usage.prompt_tokens, acc.usage.completion_tokens + n,
           acc.usage.total_tokens + n⟩⟩ hrest
      exact ⟨body, term, by simp only [runStream]; exact heq, h1, h2, h3⟩

/-- C1 (amended): for every streaming call whose vendor stream completes
and contains no tool-call (input_json_delta) content delta, the emitted
canonical chunk sequence ends with exactly one terminal chunk whose
choices sequence is empty and whose usage field is present, and every
chunk before it carries no usage (and exactly one delta choice). -/
theorem claim1_terminal_sentinel (events : List MessageStreamEvent)
    (h : ∀ e ∈ events, noToolDelta e = true) :
    ∃ body term, streamResponseGenerator events = (body ++ [term], none) ∧
      term.choices = [] ∧ term.usage.isSome = true ∧
      ∀ c ∈ body, c.usage = none ∧ c.choices.length = 1 :=
  runStream_terminal events ⟨(""), (""), ⟨0, 0, 0⟩⟩ h

/-- C1 counterexample: a completed vendor stream consisting of one
tool-call content delta makes the generator abort with an error after
emitting no chunk at all, so the emitted sequence does not end with a
usage-bearing, choice-empty terminal chunk. -/
theorem claim1_counterexample :
    streamResponseGenerator
      [MessageStreamEvent.content_block_delta (ContentBlockDelta.input_json_delta (""))] =
      ([], some AdapterError.inputJsonDelta) := rfl

/-- Witness for the amended C1 at a concrete three-event stream. -/
theorem claim1_witness :
    (∀ e ∈ [MessageStreamEvent.message_start ("msg_1") ("claude-3-5") 3 1,
        MessageStreamEvent.content_block_delta (ContentBlockDelta.text_delta ("Hi")),
        MessageStreamEvent.message_delta 4], noToolDelta e = true) ∧
    (∃ body term, streamResponseGenerator
        [MessageStreamEvent.message_start ("msg_1") ("claude-3-5") 3 1,
         MessageStreamEvent.content_block_delta (ContentBlockDelta.text_delta ("Hi")),
         MessageStreamEvent.message_delta 4] = (body ++ [term], none) ∧
      term.choices = [] ∧ term.usage.isSome = true ∧
      ∀ c ∈ body, c.usage = none ∧ c.choices.length = 1) :=
  ⟨by decide, claim1_terminal_sentinel _ (by decide)⟩

theorem runStream_usage (events : List MessageStreamEvent) :
    ∀ acc : StreamAcc, (∀ e ∈ events, isMessageStart e = false) →
    (∀ e ∈ events, noToolDelta e = true) →
    ∃ body, runStream acc events =
      (body ++ [terminalChunk ⟨acc.messageId, acc.model,
        ⟨acc.usage.prompt_tokens,
         acc.usage.completion_tokens + sumMessageDeltaTokens events,
         acc.usage.total_tokens + sumMessageDeltaTokens events⟩⟩], none) := by
  induction events with
  | nil =>
    intro acc _ _
    exact ⟨[], by simp [runStream, sumMessageDeltaTokens]⟩
  | cons e rest ih =>
    intro acc h1 h2
    have h1r : ∀ x ∈ rest, isMessageStart x = false :=
      fun x hx => h1 x (List.mem_cons_of_mem _ hx)
    have h2r : ∀ x ∈ rest, noToolDelta x = true :=
      fun x hx => h2 x (List.mem_cons_of_mem _ hx)
    cases e with
    | message_start id mdl inTok outTok =>
      have := h1 _ (List.mem_cons_self _ _)
      simp [isMessageStart] at this
    | content_block_delta d =>
      cases d with
      | input_json_delta j =>
        have := h2 _ (List.mem_cons_self _ _)
        simp [noToolDelta] at this
      | text_delta t =>
        obtain ⟨body, heq⟩ := ih acc h1r h2r
        refine ⟨⟨acc.messageId, [⟨none, ⟨some t, none⟩⟩], ("chat.completion.chunk"),
          acc.model, none⟩ :: body, ?_⟩
        simp only [runStream, parseStreamingResponseChunk, sumMessageDeltaTokens]
        rw [heq]
        rfl
      | thinking_delta t =>
        obtain ⟨body, heq⟩ := ih acc h1r h2r
        refine ⟨⟨acc.messageId, [⟨none, ⟨none, some t⟩⟩], ("chat.completion.chunk"),
          acc.model, none⟩ :: body, ?_⟩
        simp only [runStream, parseStreamingResponseChunk, sumMessageDeltaTokens]
        rw [heq]
        rfl
    | message_delta n =>
      obtain ⟨body, heq⟩ := ih ⟨acc.messageId, acc.model,
        ⟨acc.usage.prompt_tokens, acc.usage.completion_tokens + n,
         acc.usage.total_tokens + n⟩⟩ h1r h2r
      refine ⟨body, ?_⟩
      simp only [runStream, sumMessageDeltaTokens]
      rw [heq]
      simp [Nat.add_assoc]
    | content_block_start =>
      obtain ⟨body, heq⟩ := ih acc h1r h2r
      refine ⟨body, ?_⟩
      simp only [runStream, sumMessageDeltaTokens]
      exact heq
    | content_block_stop =>
      obtain ⟨body, heq⟩ := ih acc h1r h2r
      refine ⟨body, ?_⟩
      simp only [runStream, sumMessageDeltaTokens]
      exact heq
    | message_stop =>
      obtain ⟨body, heq⟩ := ih acc h1r h2r
      refine ⟨body, ?_⟩
      simp only [runStream, sumMessageDeltaTokens]
      exact heq

/-- C2 (amended): for a completed stream opened by a single stream-start
event and containing no tool-call content delta, the terminal chunk's
completion_tokens equals the start event's initial output-token snapshot
PLUS the sum of the metadata-delta (message_delta) output-token
increments; the increments alone account for the terminal value only up
to that seed. -/
theorem claim2_usage_accumulation (id mdl : String) (inTok outTok : Nat)
    (rest : List MessageStreamEvent)
    (h1 : ∀ e ∈ rest, isMessageStart e = false)
    (h2 : ∀ e ∈ rest, noToolDelta e = true) :
    (∃ body, streamResponseGenerator
        (MessageStreamEvent.message_start id mdl inTok outTok :: rest) =
      (body ++ [⟨id, [], ("chat.completion.chunk"), mdl,
        some ⟨inTok, outTok + sumMessageDeltaTokens rest,
              (inTok + outTok) + sumMessageDeltaTokens rest⟩⟩], none)) ∧
    terminalCompletionTokens (streamResponseGenerator
        (MessageStreamEvent.message_start id mdl inTok outTok :: rest)) =
      some (outTok + sumMessageDeltaTokens rest) := by
  obtain ⟨body, heq⟩ :=
    runStream_usage rest ⟨id, mdl, ⟨inTok, outTok, inTok + outTok⟩⟩ h1 h2
  have hgen : streamResponseGenerator
      (MessageStreamEvent.message_start id mdl inTok outTok :: rest) =
      (body ++ [⟨id, [], ("chat.completion.chunk"), mdl,
        some ⟨inTok, outTok + sumMessageDeltaTokens rest,
              (inTok + outTok) + sumMessageDeltaTokens rest⟩⟩], none) := by
    simp only [streamResponseGenerator, runStream]
    rw [heq]
    rfl
  refine ⟨⟨body, hgen⟩, ?_⟩
  rw [hgen]
  simp [terminalCompletionTokens]

/-- C2 counterexample: a stream consisting of one stream-start event whose
initial snapshot already carries five output tokens ends with a terminal
chunk reporting completion_tokens = 5, while the sum of the
message_delta increments is 0. -/
theorem claim2_counterexample :
    terminalCompletionTokens (streamResponseGenerator
        [MessageStreamEvent.message_start ("msg") ("mdl") 3 5]) = some 5 ∧
    sumMessageDeltaTokens [MessageStreamEvent.message_start ("msg") ("mdl") 3 5] = 0 ∧
    terminalCompletionTokens (streamResponseGenerator
        [MessageStreamEvent.message_start ("msg") ("mdl") 3 5]) ≠
      some (sumMessageDeltaTokens
        [MessageStreamEvent.message_start ("msg") ("mdl") 3 5]) := by
  refine ⟨rfl, rfl, ?_⟩
  decide

/-- Witness for the amended C2 at a concrete four-event stream: the
initial snapshot carries 2 output tokens and the deltas add 8, and the
terminal chunk reports 10. -/
theorem claim2_witness :
    (∀ e ∈ [MessageStreamEvent.content_block_delta (ContentBlockDelta.text_delta ("x")),
        MessageStreamEvent.message_delta 7, MessageStreamEvent.message_delta 1],
      isMessageStart e = false) ∧
    (∃ body, streamResponseGenerator
        (MessageStreamEvent.message_start ("a") ("m") 10 2 ::
          [MessageStreamEvent.content_block_delta (ContentBlockDelta.text_delta ("x")),
           MessageStreamEvent.message_delta 7, MessageStreamEvent.message_delta 1]) =
      (body ++ [⟨("a"), [], ("chat.completion.chunk"), ("m"),
        some ⟨10, 2 + sumMessageDeltaTokens
            [MessageStreamEvent.content_block_delta (ContentBlockDelta.text_delta ("x")),
             MessageStreamEvent.message_delta 7, MessageStreamEvent.message_delta 1],
          (10 + 2) + sumMessageDeltaTokens
            [MessageStreamEvent.content_block_delta (ContentBlockDelta.text_delta ("x")),
             MessageStreamEvent.message_delta 7, MessageStreamEvent.message_delta 1]⟩⟩],
        none)) ∧
    terminalCompletionTokens (streamResponseGenerator
        (MessageStreamEvent.message_start ("a") ("m") 10 2 ::
          [MessageStreamEvent.content_block_delta (ContentBlockDelta.text_delta ("x")),
           MessageStreamEvent.message_delta 7, MessageStreamEvent.message_delta 1])) =
      some (2 + sumMessageDeltaTokens
        [MessageStreamEvent.content_block_delta (ContentBlockDelta.text_delta ("x")),
         MessageStreamEvent.message_delta 7, MessageStreamEvent.message_delta 1]) :=
  ⟨by decide,
   (claim2_usage_accumulation ("a") ("m") 10 2 _ (by decide) (by decide)).1,
   (claim2_usage_accumulation ("a") ("m") 10 2 _ (by decide) (by decide)).2⟩

theorem mapExcept_cons_error {α β : Type} {f : α → Except AdapterError β}
    {a : α} {l : List α} {e : AdapterError} (h : f a = .error e) :
    mapExcept f (a :: l) = .error e := by
  simp [mapExcept, h]

theorem mapExcept_append_error {α β : Type} {f : α → Except AdapterError β}
    {l₁ l₂ : List α} {vs : List β} {e : AdapterError}
    (h1 : mapExcept f l₁ = .ok vs) (h2 : mapExcept f l₂ = .error e) :
    mapExcept f (l₁ ++ l₂) = .error e := by
  induction l₁ generalizing vs with
  | nil => simpa using h2
  | cons a as ih =>
    rw [List.cons_append]
    unfold mapExcept at h1 ⊢
    cases hfa : f a with
    | error e' =>
      rw [hfa] at h1
      simp at h1
    | ok b =>
      rw [hfa] at h1
      cases hrest : mapExcept f as with
      | error e' =>
        rw [hrest] at h1
        simp at h1
      | ok bs =>
        rw [hrest] at h1
        rw [ih hrest]

theorem mapExcept_mem {α β : Type} {f : α → Except AdapterError β}
    {l : List α} {l' : List β} (h : mapExcept f l = .ok l') :
    ∀ b ∈ l', ∃ a ∈ l, f a = .ok b := by
  induction l generalizing l' with
  | nil =>
    unfold mapExcept at h
    cases h
    simp
  | cons a as ih =>
    unfold mapExcept at h
    cases hfa : f a with
    | error e' =>
      rw [hfa] at h
      simp at h
    | ok b0 =>
      rw [hfa] at h
      cases hrest : mapExcept f as with
      | error e' =>
        rw [hrest] at h
        simp at h
      | ok bs =>
        rw [hrest] at h
        cases h
        intro b hb
        rcases List.mem_cons.mp hb with hbEq | hbMem
        · exact ⟨a, List.mem_cons_self _ _, hbEq ▸ hfa⟩
        · obtain ⟨a', ha', hfa'⟩ := ih hrest b hbMem
          exact ⟨a', List.mem_cons_of_mem _ ha', hfa'⟩

theorem parseRequestMessage_not_system {m : RequestMessage} {v : MessageParam}
    (h : parseRequestMessage m = .ok v) : v.role ≠ Role.system := by
  obtain ⟨role, content⟩ := m
  cases role with
  | system =>
    cases content <;> simp [parseRequestMessage] at h
  | user =>
    cases content with
    | str s =>
      simp [parseRequestMessage] at h
      rw [← h]
      simp
    | parts ps =>
      dsimp only [parseRequestMessage] at h
      cases hm : mapExcept parseContentPart ps with
      | error e =>
        rw [hm] at h
        simp at h
      | ok bs =>
        rw [hm] at h
        cases h
        simp
  | assistant =>
    cases content with
    | str s =>
      simp [parseRequestMessage] at h
      rw [← h]
      simp
    | parts ps =>
      simp [parseRequestMessage] at h
      rw [← h]
      simp

theorem buildPayload_validate_error {model : ChatModel} {req : LLMRequest}
    {stream : Bool} {e : AdapterError}
    (h : validateSystemMessages req.messages = .error e) :
    buildPayload model req stream = .error e := by
  unfold buildPayload
  rw [h]

theorem buildPayload_messages_error {model : ChatModel} {req : LLMRequest}
    {stream : Bool} {sys : Option String} {e : AdapterError}
    (hs : validateSystemMessages req.messages = .ok sys)
    (h : mapExcept parseRequestMessage
      ((req.messages.filter (fun m => m.role != Role.system)).filter
        (fun m => !isMessageEmpty m)) = .error e) :
    buildPayload model req stream = .error e := by
  unfold buildPayload
  rw [hs, h]

theorem generateResponse_payload_error {p : AnthropicProvider}
    {model : ChatModel} {req : LLMRequest} {e : AdapterError}
    (ht : model.providerType = ("anthropic")) (hk : hasApiKey p.client = true)
    (hb : buildPayload model req false = .error e) :
    ∀ t, generateResponse p model req t = .error e := by
  intro t
  unfold generateResponse
  rw [ht, hb]
  simp [hk]

theorem streamResponse_payload_error {p : AnthropicProvider}
    {model : ChatModel} {req : LLMRequest} {e : AdapterError}
    (ht : model.providerType = ("anthropic")) (hk : hasApiKey p.client = true)
    (hb : buildPayload model req true = .error e) :
    ∀ t, streamResponse p model req t = .error e := by
  intro t
  unfold streamResponse
  rw [ht, hb]
  simp [hk]

/-- C3: for every request holding exactly one system-role message, with
string content, for which payload construction succeeds, the payload's
top-level system field equals that message's content, the transmitted
message list is exactly the translation of the request messages with
system-role and empty messages silently dropped (dropping them is not an
error), and no transmitted message carries the system role. -/
theorem claim3_system_extraction (model : ChatModel) (req : LLMRequest)
    (m0 : RequestMessage) (s : String) (stream : Bool) (p : AnthropicPayload)
    (hfilter : req.messages.filter (fun m => m.role == Role.system) = [m0])
    (hc : m0.content = MessageContent.str s)
    (hp : buildPayload model req stream = .ok p) :
    p.system = some s ∧
    mapExcept parseRequestMessage
      ((req.messages.filter (fun m => m.role != Role.system)).filter
        (fun m => !isMessageEmpty m)) = .ok p.messages ∧
    ∀ vm ∈ p.messages, vm.role ≠ Role.system := by
  have hv : validateSystemMessages req.messages = .ok (some s) := by
    unfold validateSystemMessages
    rw [hfilter]
    dsimp only
    rw [hc]
  unfold buildPayload at hp
  rw [hv] at hp
  cases hm : mapExcept parseRequestMessage
      ((req.messages.filter (fun m => m.role != Role.system)).filter
        (fun m => !isMessageEmpty m)) with
  | error e =>
    rw [hm] at hp
    simp at hp
  | ok msgs =>
    rw [hm] at hp
    cases hp
    refine ⟨rfl, rfl, ?_⟩
    intro vm hvm
    obtain ⟨a, _, hfa⟩ := mapExcept_mem hm vm hvm
    exact parseRequestMessage_not_system hfa

/-- Witness for C3 at a concrete request: system message extracted to the
top-level field, user message transmitted, whitespace-only message
silently dropped. -/
theorem claim3_witness :
    (c3req.messages.filter (fun m => m.role == Role.system) =
      [⟨Role.system, MessageContent.str ("Be terse")⟩]) ∧
    buildPayload ⟨("anthropic"), none⟩ c3req false = .ok c3payload ∧
    (c3payload.system = some ("Be terse") ∧
     mapExcept parseRequestMessage
       ((c3req.messages.filter (fun m => m.role != Role.system)).filter
         (fun m => !isMessageEmpty m)) = .ok c3payload.messages ∧
     ∀ vm ∈ c3payload.messages, vm.role ≠ Role.system) :=
  ⟨by decide, rfl,
   claim3_system_extraction ⟨("anthropic"), none⟩ c3req
     ⟨Role.system, MessageContent.str ("Be terse")⟩ ("Be terse") false c3payload
     (by decide) rfl rfl⟩

theorem validateSystemMessages_shape_error (msgs : List RequestMessage)
    (h : 1 < (msgs.filter (fun m => m.role == Role.system)).length ∨
      ∃ m ∈ msgs, m.role = Role.system ∧ ∃ ps, m.content = MessageContent.parts ps) :
    validateSystemMessages msgs = .error AdapterError.tooManySystemMessages ∨
    validateSystemMessages msgs = .error AdapterError.nonStringSystemContent := by
  rcases hfl : msgs.filter (fun m => m.role == Role.system) with _ | ⟨a, _ | ⟨b, t⟩⟩
  · exfalso
    rcases h with hlen | ⟨m, hm, hrole, ps, hcont⟩
    · rw [hfl] at hlen
      simp at hlen
    · have hmem : m ∈ msgs.filter (fun m => m.role == Role.system) :=
        List.mem_filter.mpr ⟨hm, by simp [hrole]⟩
      rw [hfl] at hmem
      simp at hmem
  · have hv : validateSystemMessages msgs =
        (match a.content with
         | MessageContent.str s => .ok (some s)
         | MessageContent.parts _ => .error .nonStringSystemContent) := by
      unfold validateSystemMessages
      rw [hfl]
    rcases h with hlen | ⟨m, hm, hrole, ps, hcont⟩
    · rw [hfl] at hlen
      simp at hlen
    · have hmem : m ∈ msgs.filter (fun m => m.role == Role.system) :=
        List.mem_filter.mpr ⟨hm, by simp [hrole]⟩
      rw [hfl] at hmem
      have hma : m = a := by simpa using hmem
      subst hma
      right
      rw [hv, hcont]
  · left
    unfold validateSystemMessages
    rw [hfl]

/-- C4: for every request with more than one system-role message, or with
a system-role message whose content is not a string, both generateResponse
and streamResponse fail with one of the two request-shape errors
(UnsupportedRequestShape), whatever the vendor transport would answer —
so no transport call is made. Assumes the call otherwise proceeds: the
provider tag matches and the credential is present, since those checks
run first. -/
theorem claim4_unsupported_shape (p : AnthropicProvider) (model : ChatModel)
    (req : LLMRequest)
    (ht : model.providerType = ("anthropic")) (hk : hasApiKey p.client = true)
    (h : 1 < (req.messages.filter (fun m => m.role == Role.system)).length ∨
      ∃ m ∈ req.messages, m.role = Role.system ∧
        ∃ ps, m.content = MessageContent.parts ps) :
    ∃ e, (e = AdapterError.tooManySystemMessages ∨
        e = AdapterError.nonStringSystemContent) ∧
      (∀ gt, generateResponse p model req gt = .error e) ∧
      (∀ st, streamResponse p model req st = .error e) := by
  rcases validateSystemMessages_shape_error req.messages h with hv | hv
  · exact ⟨_, Or.inl rfl,
      generateResponse_payload_error ht hk (buildPayload_validate_error hv),
      streamResponse_payload_error ht hk (buildPayload_validate_error hv)⟩
  · exact ⟨_, Or.inr rfl,
      generateResponse_payload_error ht hk (buildPayload_validate_error hv),
      streamResponse_payload_error ht hk (buildPayload_validate_error hv)⟩

/-- Witness for C4 at a concrete request with two system messages and a
configured adapter with a present key. -/
theorem claim4_witness :
    (1 < (c4req.messages.filter (fun m => m.role == Role.system)).length) ∧
    (∃ e, (e = AdapterError.tooManySystemMessages ∨
        e = AdapterError.nonStringSystemContent) ∧
      (∀ gt, generateResponse cProv ⟨("anthropic"), none⟩ c4req gt = .error e) ∧
      (∀ st, streamResponse cProv ⟨("anthropic"), none⟩ c4req st = .error e)) :=
  ⟨by decide,
   claim4_unsupported_shape cProv ⟨("anthropic"), none⟩ c4req rfl (by decide)
     (Or.inl (by decide))⟩

/-- C5: whenever payload construction succeeds, the transmitted max_tokens
is the request's max_tokens when present; otherwise the thinking budget
plus the 8192 floor when the model is configured for thinking, and the
8192 floor alone when it is not. -/
theorem claim5_max_tokens (model : ChatModel) (req : LLMRequest) (stream : Bool)
    (p : AnthropicPayload) (hp : buildPayload model req stream = .ok p) :
    p.max_tokens =
      (match req.max_tokens with
       | some t => t
       | none =>
         match model.thinking with
         | some budget => budget + 8192
         | none => 8192) := by
  unfold buildPayload at hp
  cases hv : validateSystemMessages req.messages with
  | error e =>
    rw [hv] at hp
    simp at hp
  | ok sys =>
    rw [hv] at hp
    cases hm : mapExcept parseRequestMessage
        ((req.messages.filter (fun m => m.role != Role.system)).filter
          (fun m => !isMessageEmpty m)) with
    | error e =>
      rw [hm] at hp
      simp at hp
    | ok msgs =>
      rw [hm] at hp
      cases hp
      rfl

/-- Witness for C5 at a concrete request with absent max_tokens and a
thinking budget of 2048: the transmitted max_tokens is 10240. -/
theorem claim5_witness :
    buildPayload ⟨("anthropic"), some 2048⟩ c5req false = .ok c5payload ∧
    c5payload.max_tokens = 10240 :=
  ⟨rfl, claim5_max_tokens ⟨("anthropic"), some 2048⟩ c5req false c5payload rfl⟩

theorem parseContentPart_bad_image {url mime data : String}
    (hurl : parseImageDataUrl url = .ok ⟨mime, data⟩)
    (hmime : SUPPORTED_IMAGE_TYPES.contains mime = false) :
    parseContentPart (ContentPart.image_url url) =
      .error (.unsupportedImageType (imageTypeErrorMessage mime)) := by
  dsimp only [parseContentPart]
  rw [hurl]
  have hnotmem : ¬ mime ∈ SUPPORTED_IMAGE_TYPES := by simpa using hmime
  simp [validateImageType, hnotmem]

/-- C6: for every otherwise well-formed request containing an image
content part whose decoded mime type is outside the vendor allow-list,
both entry points fail with the unsupported-image-type error — whatever
the transport would answer, so no transport call is made — and the error
message names every member of the allowed set. The well-formedness
hypotheses pin down the scenario: valid system messages, earlier messages
and earlier parts of the offending message translate cleanly, and the
image reference itself decodes. -/
theorem claim6_unsupported_image (p : AnthropicProvider) (model : ChatModel)
    (req : LLMRequest) (pre post : List RequestMessage)
    (parts1 parts2 : List ContentPart) (url mime data : String)
    (sysOpt : Option String) (vs : List MessageParam) (bs : List ContentBlock)
    (ht : model.providerType = ("anthropic")) (hk : hasApiKey p.client = true)
    (hsys : validateSystemMessages req.messages = .ok sysOpt)
    (hmsgs : req.messages = pre ++
      ⟨Role.user, MessageContent.parts
        (parts1 ++ ContentPart.image_url url :: parts2)⟩ :: post)
    (hpre : mapExcept parseRequestMessage
      ((pre.filter (fun m => m.role != Role.system)).filter
        (fun m => !isMessageEmpty m)) = .ok vs)
    (hparts : mapExcept parseContentPart parts1 = .ok bs)
    (hurl : parseImageDataUrl url = .ok ⟨mime, data⟩)
    (hmime : SUPPORTED_IMAGE_TYPES.contains mime = false) :
    (∀ gt, generateResponse p model req gt =
      .error (.unsupportedImageType (imageTypeErrorMessage mime))) ∧
    (∀ st, streamResponse p model req st =
      .error (.unsupportedImageType (imageTypeErrorMessage mime))) ∧
    (∀ ty ∈ SUPPORTED_IMAGE_TYPES,
      containsSubstr (imageTypeErrorMessage mime) ty = true) := by
  have hbad := parseContentPart_bad_image hurl hmime
  have hmsg : parseRequestMessage ⟨Role.user, MessageContent.parts
      (parts1 ++ ContentPart.image_url url :: parts2)⟩ =
      .error (.unsupportedImageType (imageTypeErrorMessage mime)) := by
    dsimp only [parseRequestMessage]
    rw [mapExcept_append_error hparts (mapExcept_cons_error hbad)]
  have hfilterEq : (req.messages.filter (fun m => m.role != Role.system)).filter
      (fun m => !isMessageEmpty m) =
      ((pre.filter (fun m => m.role != Role.system)).filter
        (fun m => !isMessageEmpty m)) ++
      ⟨Role.user, MessageContent.parts
        (parts1 ++ ContentPart.image_url url :: parts2)⟩ ::
      ((post.filter (fun m => m.role != Role.system)).filter
        (fun m => !isMessageEmpty m)) := by
    rw [hmsgs]
    simp [List.filter_append, List.filter_cons, isMessageEmpty]
  have hmap : mapExcept parseRequestMessage
      ((req.messages.filter (fun m => m.role != Role.system)).filter
        (fun m => !isMessageEmpty m)) =
      .error (.unsupportedImageType (imageTypeErrorMessage mime)) := by
    rw [hfilterEq]
    exact mapExcept_append_error hpre (mapExcept_cons_error hmsg)
  refine ⟨generateResponse_payload_error ht hk
      (buildPayload_messages_error hsys hmap),
    streamResponse_payload_error ht hk
      (buildPayload_messages_error hsys hmap), ?_⟩
  intro ty hty
  have hsuf : containsSubstr imageTypesSuffix ty = true := by
    simp [SUPPORTED_IMAGE_TYPES] at hty
    rcases hty with rfl | rfl | rfl | rfl <;> decide
  unfold imageTypeErrorMessage
  exact containsSubstr_append_right ("Anthropic does not support image type ")
    (mime ++ imageTypesSuffix) ty
    (containsSubstr_append_right mime imageTypesSuffix ty hsuf)

/-- Witness for C6 at a concrete request carrying a bmp image: both calls
fail with the enumerating error under a concrete transport, and the
message names the png member of the allowed set. -/
theorem claim6_witness :
    parseImageDataUrl ("data:image/bmp;base64,AAAA") =
      .ok ⟨("image/bmp"), ("AAAA")⟩ ∧
    SUPPORTED_IMAGE_TYPES.contains ("image/bmp") = false ∧
    generateResponse cProv ⟨("anthropic"), none⟩ c6req failTransport =
      .error (.unsupportedImageType (imageTypeErrorMessage ("image/bmp"))) ∧
    streamResponse cProv ⟨("anthropic"), none⟩ c6req failStreamTransport =
      .error (.unsupportedImageType (imageTypeErrorMessage ("image/bmp"))) ∧
    containsSubstr (imageTypeErrorMessage ("image/bmp")) ("image/png") = true :=
  ⟨rfl, by decide,
   (claim6_unsupported_image cProv ⟨("anthropic"), none⟩ c6req [] [] [] []
     ("data:image/bmp;base64,AAAA") ("image/bmp") ("AAAA") none [] []
     rfl (by decide) rfl rfl rfl rfl rfl (by decide)).1 failTransport,
   (claim6_unsupported_image cProv ⟨("anthropic"), none⟩ c6req [] [] [] []
     ("data:image/bmp;base64,AAAA") ("image/bmp") ("AAAA") none [] []
     rfl (by decide) rfl rfl rfl rfl rfl (by decide)).2.1 failStreamTransport,
   (claim6_unsupported_image cProv ⟨("anthropic"), none⟩ c6req [] [] [] []
     ("data:image/bmp;base64,AAAA") ("image/bmp") ("AAAA") none [] []
     rfl (by decide) rfl rfl rfl rfl rfl (by decide)).2.2 ("image/png")
     (by decide)⟩

theorem generateResponse_transport_result (p : AnthropicProvider)
    (model : ChatModel) (req : LLMRequest) (payload : AnthropicPayload)
    (t : AnthropicPayload → Except VendorError AnthropicMessage)
    (ht : model.providerType = ("anthropic")) (hk : hasApiKey p.client = true)
    (hb : buildPayload model req false = .ok payload) :
    generateResponse p model req t =
      (match t payload with
       | .error ve => .error (classifyVendorError p.provider.id ve)
       | .ok r => parseNonStreamingResponse r) := by
  unfold generateResponse
  rw [ht, hb]
  simp [hk]

theorem streamResponse_transport_result (p : AnthropicProvider)
    (model : ChatModel) (req : LLMRequest) (payload : AnthropicPayload)
    (t : AnthropicPayload → Except VendorError (List MessageStreamEvent))
    (ht : model.providerType = ("anthropic")) (hk : hasApiKey p.client = true)
    (hb : buildPayload model req true = .ok payload) :
    streamResponse p model req t =
      (match t payload with
       | .error ve => .error (classifyVendorError p.provider.id ve)
       | .ok events => .ok (streamResponseGenerator events)) := by
  unfold streamResponse
  rw [ht, hb]
  simp [hk]

/-- C7: on a vendor authentication failure, both entry points raise
APIKeyInvalid — with the organization-creation remediation message when
the vendor error text contains the known CORS restriction phrase, and the
generic message otherwise — while any non-authentication transport
failure propagates unchanged; and the CORS remediation message carries
the organization-creation guidance. -/
theorem claim7_auth_classification (p : AnthropicProvider) (model : ChatModel)
    (req : LLMRequest) (payloadG payloadS : AnthropicPayload) (msg em : String)
    (ht : model.providerType = ("anthropic")) (hk : hasApiKey p.client = true)
    (hbg : buildPayload model req false = .ok payloadG)
    (hbs : buildPayload model req true = .ok payloadS) :
    (generateResponse p model req (fun _ => .error (.authError msg)) =
      .error (.apiKeyInvalid
        (if containsSubstr msg corsRestrictionText then
          corsRemediationMessage p.provider.id
         else invalidKeyMessage p.provider.id))) ∧
    (streamResponse p model req (fun _ => .error (.authError msg)) =
      .error (.apiKeyInvalid
        (if containsSubstr msg corsRestrictionText then
          corsRemediationMessage p.provider.id
         else invalidKeyMessage p.provider.id))) ∧
    (generateResponse p model req (fun _ => .error (.other em)) =
      .error (.vendorPassthrough em)) ∧
    (streamResponse p model req (fun _ => .error (.other em)) =
      .error (.vendorPassthrough em)) ∧
    containsSubstr (corsRemediationMessage p.provider.id)
      ("Create a new organization") = true := by
  refine ⟨?_, ?_, ?_, ?_, ?_⟩
  · rw [generateResponse_transport_result p model req payloadG _ ht hk hbg]
    cases hc : containsSubstr msg corsRestrictionText <;>
      simp [classifyVendorError, hc]
  · rw [streamResponse_transport_result p model req payloadS _ ht hk hbs]
    cases hc : containsSubstr msg corsRestrictionText <;>
      simp [classifyVendorError, hc]
  · rw [generateResponse_transport_result p model req payloadG _ ht hk hbg]
    rfl
  · rw [streamResponse_transport_result p model req payloadS _ ht hk hbs]
    rfl
  · unfold corsRemediationMessage
    exact containsSubstr_append_right ("Provider ")
      (p.provider.id ++ corsRemediationSuffix) _
      (containsSubstr_append_right p.provider.id corsRemediationSuffix _
        (by decide))

/-- Witness for C7 at a concrete adapter and empty request: a CORS-text
authentication failure yields the remediation message, a plain one yields
the generic message, an opaque failure passes through, and the
remediation message names organization creation. -/
theorem claim7_witness :
    buildPayload ⟨("anthropic"), none⟩ c5req false = .ok c7payloadG ∧
    generateResponse cProv ⟨("anthropic"), none⟩ c5req
      (fun _ => .error (.authError corsRestrictionText)) =
      .error (.apiKeyInvalid (corsRemediationMessage ("prov1"))) ∧
    streamResponse cProv ⟨("anthropic"), none⟩ c5req
      (fun _ => .error (.authError (("bad key")))) =
      .error (.apiKeyInvalid (invalidKeyMessage ("prov1"))) ∧
    generateResponse cProv ⟨("anthropic"), none⟩ c5req
      (fun _ => .error (.other (("boom")))) =
      .error (.vendorPassthrough (("boom"))) ∧
    containsSubstr (corsRemediationMessage ("prov1"))
      ("Create a new organization") = true :=
  ⟨rfl,
   (claim7_auth_classification cProv ⟨("anthropic"), none⟩ c5req c7payloadG
     c7payloadS corsRestrictionText ("boom") rfl (by decide) rfl rfl).1,
   (claim7_auth_classification cProv ⟨("anthropic"), none⟩ c5req c7payloadG
     c7payloadS ("bad key") ("boom") rfl (by decide) rfl rfl).2.1,
   (claim7_auth_classification cProv ⟨("anthropic"), none⟩ c5req c7payloadG
     c7payloadS ("bad key") ("boom") rfl (by decide) rfl rfl).2.2.1,
   (claim7_auth_classification cProv ⟨("anthropic"), none⟩ c5req c7payloadG
     c7payloadS ("bad key") ("boom") rfl (by decide) rfl rfl).2.2.2.2⟩

/-- C8 (amended): multi-part content is translated part-by-part only for
user-role messages; a system-role multi-part message makes the call fail
at system-message validation with a request-shape error; but an
assistant-role multi-part message is neither rejected nor coerced — its
part sequence is transmitted as-is through the unchecked
`content as string` cast. -/
theorem claim8_multipart_roles :
    (∀ ps, parseRequestMessage ⟨Role.assistant, MessageContent.parts ps⟩ =
      .ok ⟨Role.assistant, MessageParamContent.rawParts ps⟩) ∧
    (∀ msgs, ∀ m ∈ msgs, m.role = Role.system →
      (∃ ps, m.content = MessageContent.parts ps) →
      validateSystemMessages msgs = .error AdapterError.tooManySystemMessages ∨
      validateSystemMessages msgs = .error AdapterError.nonStringSystemContent) ∧
    (∀ ps bs, mapExcept parseContentPart ps = .ok bs →
      parseRequestMessage ⟨Role.user, MessageContent.parts ps⟩ =
        .ok ⟨Role.user, MessageParamContent.blocks bs⟩) := by
  refine ⟨fun ps => rfl, ?_, ?_⟩
  · rintro msgs m hm hrole ⟨ps, hps⟩
    exact validateSystemMessages_shape_error msgs (Or.inr ⟨m, hm, hrole, ps, hps⟩)
  · intro ps bs h
    dsimp only [parseRequestMessage]
    rw [h]

/-- C8 counterexample: an assistant-role message with multi-part content
is accepted and its part sequence transmitted as-is — neither rejected
nor coerced — contradicting the claim that multi-part content is only
transmitted as-is for user-role messages. -/
theorem claim8_counterexample :
    parseRequestMessage ⟨Role.assistant, MessageContent.parts
      [ContentPart.text ("hi")]⟩ =
    .ok ⟨Role.assistant, MessageParamContent.rawParts
      [ContentPart.text ("hi")]⟩ := rfl

/-- Witness for the amended C8 at concrete messages of each role. -/
theorem claim8_witness :
    parseRequestMessage ⟨Role.assistant, MessageContent.parts
      [ContentPart.text ("a")]⟩ =
      .ok ⟨Role.assistant, MessageParamContent.rawParts
        [ContentPart.text ("a")]⟩ ∧
    (validateSystemMessages [⟨Role.system, MessageContent.parts []⟩] =
        .error AdapterError.tooManySystemMessages ∨
     validateSystemMessages [⟨Role.system, MessageContent.parts []⟩] =
        .error AdapterError.nonStringSystemContent) ∧
    parseRequestMessage ⟨Role.user, MessageContent.parts
      [ContentPart.text ("b")]⟩ =
      .ok ⟨Role.user, MessageParamContent.blocks [ContentBlock.text ("b")]⟩ :=
  ⟨claim8_multipart_roles.1 _,
   claim8_multipart_roles.2.1 [⟨Role.system, MessageContent.parts []⟩]
     ⟨Role.system, MessageContent.parts []⟩ (by simp) rfl ⟨[], rfl⟩,
   claim8_multipart_roles.2.2 _ _ rfl⟩

/-- C9: adapter construction is total — with an absent API key it still
produces an adapter, storing no key — and every later call made while
the key is absent fails with APIKeyNotSet whatever the transport would
answer, hence before any transport call. Stated for models carrying the
matching provider tag, since that check runs first. -/
theorem claim9_deferred_credential (prov : Provider) (model : ChatModel)
    (req : LLMRequest) (hkey : prov.apiKey = none)
    (ht : model.providerType = ("anthropic")) :
    (mkAnthropicProvider prov).client.apiKey = none ∧
    (∀ gt, generateResponse (mkAnthropicProvider prov) model req gt =
      .error (.apiKeyNotSet (apiKeyMissingMessage prov.id))) ∧
    (∀ st, streamResponse (mkAnthropicProvider prov) model req st =
      .error (.apiKeyNotSet (apiKeyMissingMessage prov.id))) := by
  have hck : (mkAnthropicProvider prov).client.apiKey = none := by
    simp [mkAnthropicProvider, hkey]
  have hk : hasApiKey (mkAnthropicProvider prov).client = false := by
    simp [hasApiKey, hck]
  refine ⟨hck, ?_, ?_⟩
  · intro gt
    unfold generateResponse
    rw [ht, hk]
    simp [mkAnthropicProvider]
  · intro st
    unfold streamResponse
    rw [ht, hk]
    simp [mkAnthropicProvider]

/-- Witness for C9 at a concrete keyless provider record. -/
theorem claim9_witness :
    (mkAnthropicProvider ⟨("p9"), none, some ("https://api.example.com/")⟩).client.apiKey = none ∧
    generateResponse (mkAnthropicProvider ⟨("p9"), none, some ("https://api.example.com/")⟩)
      ⟨("anthropic"), none⟩ c5req failTransport =
      .error (.apiKeyNotSet (apiKeyMissingMessage ("p9"))) ∧
    streamResponse (mkAnthropicProvider ⟨("p9"), none, some ("https://api.example.com/")⟩)
      ⟨("anthropic"), none⟩ c5req failStreamTransport =
      .error (.apiKeyNotSet (apiKeyMissingMessage ("p9"))) :=
  ⟨(claim9_deferred_credential ⟨("p9"), none, some ("https://api.example.com/")⟩
      ⟨("anthropic"), none⟩ c5req rfl rfl).1,
   (claim9_deferred_credential ⟨("p9"), none, some ("https://api.example.com/")⟩
      ⟨("anthropic"), none⟩ c5req rfl rfl).2.1 failTransport,
   (claim9_deferred_credential ⟨("p9"), none, some ("https://api.example.com/")⟩
      ⟨("anthropic"), none⟩ c5req rfl rfl).2.2 failStreamTransport⟩

/-- C10: a vendor non-streaming reply is rejected with the tool-use
(UnsupportedContentType) error exactly when its FIRST content block is a
tool invocation; when the first block is not one — whatever the later
blocks hold — parsing succeeds and the message body is the in-order
concatenation of all text-typed blocks, so a later tool-invocation block
raises no error and is silently omitted. -/
theorem claim10_tool_use_first (r : AnthropicMessage) :
    (parseNonStreamingResponse r = .error AdapterError.toolUseContent ↔
      ∃ i n inp rest, r.content = RespContentBlock.tool_use i n inp :: rest) ∧
    (∀ b bs, r.content = b :: bs → blockIsToolUse b = false →
      parseNonStreamingResponse r = .ok
        ⟨r.id,
         [⟨r.stop_reason,
           ⟨String.join (r.content.filterMap blockText),
            (if String.join (r.content.filterMap blockThinking) == ("") then none
             else some (String.join (r.content.filterMap blockThinking))),
            r.role⟩⟩],
         r.model, ("chat.completion"),
         ⟨r.usage.input_tokens, r.usage.output_tokens,
          r.usage.input_tokens + r.usage.output_tokens⟩⟩) := by
  constructor
  · constructor
    · intro h
      rcases hc : r.content with _ | ⟨b, bs⟩
      · simp [parseNonStreamingResponse, hc] at h
      · cases b with
        | tool_use i n inp => exact ⟨i, n, inp, bs, rfl⟩
        | text t => simp [parseNonStreamingResponse, hc] at h
        | thinking t => simp [parseNonStreamingResponse, hc] at h
    · rintro ⟨i, n, inp, rest, hc⟩
      simp [parseNonStreamingResponse, hc]
  · intro b bs hc hb
    cases b with
    | tool_use i n inp => simp [blockIsToolUse] at hb
    | text t => simp [parseNonStreamingResponse, hc]
    | thinking t => simp [parseNonStreamingResponse, hc]

/-- Witness for C10 at a concrete reply with a tool invocation in second
position: no error, body "ab", reasoning "hm". -/
theorem claim10_witness :
    blockIsToolUse (RespContentBlock.text ("a")) = false ∧
    parseNonStreamingResponse c10resp = .ok
      ⟨("msg_x"),
       [⟨some ("end_turn"), ⟨("ab"), some ("hm"), ("assistant")⟩⟩],
       ("claude-3"), ("chat.completion"), ⟨7, 9, 16⟩⟩ :=
  ⟨rfl, (claim10_tool_use_first c10resp).2 _ _ rfl rfl⟩
